import Mathlib

/-!
Verification development for the panel-3dmol repository.

The Python sources `src/panel_3dmol/viewer.py` (class `Mol3DViewer`) and
`src/refactored_animated_viewer.py` (class `AnimatedMolecularViewer`) are
shallowly embedded below.  Python strings are modelled as `List Char`
(with `String` at the state boundary), Python ints as `Int`, Python floats
as `ℚ` (the numeric texts occurring in the claims are exactly representable),
and `param` parameter writes as explicit validated setters that either
update the state or raise a bounds error carrying the state at the moment
of the raise (Python mutations performed before an exception persist).
-/

namespace Panel3dmol

/-! ### Python string primitives -/

/-- The whitespace characters recognised by Python `str.strip` / `str.split`. -/
def pyIsSpace (c : Char) : Bool :=
  c = ' ' || c = '\t' || c = '\n' || c = '\r' || c = '\x0b' || c = '\x0c'

/-- Python `str.strip()`: drop leading and trailing whitespace. -/
def pyStrip (cs : List Char) : List Char :=
  ((cs.dropWhile pyIsSpace).reverse.dropWhile pyIsSpace).reverse

/-- Python `str.split('\n')`: split on every newline, keeping empty pieces. -/
def splitNl : List Char → List (List Char)
  | [] => [[]]
  | c :: cs =>
    match splitNl cs with
    | [] => [[c]]
    | l :: ls => if c = '\n' then [] :: l :: ls else (c :: l) :: ls

/-- Auxiliary for `splitWs`: accumulates the current token (reversed). -/
def splitWsAux : List Char → List Char → List (List Char)
  | [], acc => if acc.isEmpty then [] else [acc.reverse]
  | c :: cs, acc =>
    if pyIsSpace c then
      if acc.isEmpty then splitWsAux cs [] else acc.reverse :: splitWsAux cs []
    else splitWsAux cs (c :: acc)

/-- Python `str.split()` with no argument: split on whitespace runs,
producing no empty tokens. -/
def splitWs (cs : List Char) : List (List Char) :=
  splitWsAux cs []

/-- Python `'\n'.join`: interleave newlines between the pieces. -/
def joinNl (ls : List (List Char)) : List Char :=
  List.intercalate ['\n'] ls

/-- Python `str.lower()` (ASCII case folding; the format tags are ASCII). -/
def pyLower (cs : List Char) : List Char :=
  cs.map Char.toLower

/-! ### Python numeric literal parsing -/

/-- Value of an ASCII decimal digit. -/
def digitVal (c : Char) : Option Nat :=
  if '0' ≤ c ∧ c ≤ '9' then some (c.toNat - '0'.toNat) else none

/-- Interpret a nonempty all-digit character list as a natural number. -/
def digitsToNat : List Char → Option Nat
  | [] => none
  | cs => cs.foldl (fun acc c =>
      match acc, digitVal c with
      | some n, some d => some (n * 10 + d)
      | _, _ => none) (some 0)

/-- Python `int(str)`: optional surrounding whitespace, optional sign,
one or more decimal digits.  (Digit-group underscores and non-ASCII digits
are outside the grammar used by this repository's inputs.) -/
def pyInt (cs : List Char) : Option Int :=
  match pyStrip cs with
  | '+' :: rest => (digitsToNat rest).map Int.ofNat
  | '-' :: rest => (digitsToNat rest).map fun n => -(Int.ofNat n)
  | rest => (digitsToNat rest).map Int.ofNat

/-- Split off a maximal run of leading decimal digits. -/
def takeDigits : List Char → List Char × List Char
  | [] => ([], [])
  | c :: cs =>
    if ('0' ≤ c ∧ c ≤ '9') then
      match takeDigits cs with
      | (ds, rest) => (c :: ds, rest)
    else ([], c :: cs)

/-- Numeric value of a digit run (digits already validated). -/
def digitsNat (cs : List Char) : Nat :=
  cs.foldl (fun acc c => acc * 10 + (c.toNat - '0'.toNat)) 0

/-- Exact decimal number, the model of the Python floats this repository
parses out of coordinate text: the value is `mant / 10 ^ exp`.  Kept in
canonical form (`exp = 0`, or `mant` not divisible by 10), so that
structural equality coincides with numeric equality.  All coordinate
literals appearing in the claims are small decimals, on which binary
floating point is exact, so the decimal model is faithful there. -/
structure Dec where
  mant : Int
  exp : Nat
deriving Repr, DecidableEq

instance (n : Nat) : OfNat Dec n := ⟨⟨n, 0⟩⟩

instance : Neg Dec := ⟨fun d => ⟨-d.mant, d.exp⟩⟩

/-- Strip common factors of 10 from `mant / 10 ^ exp`. -/
def Dec.canon : Int → Nat → Dec
  | m, 0 => ⟨m, 0⟩
  | m, e + 1 => if m % 10 = 0 then Dec.canon (m / 10) e else ⟨m, e + 1⟩

/-- The canonical decimal with value `m0 * 10 ^ e / 10 ^ e0`. -/
def Dec.make (m0 : Int) (e : Int) (e0 : Nat) : Dec :=
  let t : Int := e - (e0 : Int)
  if 0 ≤ t then ⟨m0 * 10 ^ t.toNat, 0⟩ else Dec.canon m0 (-t).toNat

/-- Python `float(str)` on finite decimal literals: optional surrounding
whitespace and sign, a mantissa `digits`, `digits.`, `digits.digits` or
`.digits`, and an optional decimal exponent. -/
def pyFloat (cs0 : List Char) : Option Dec :=
  let cs := pyStrip cs0
  let sgncs : Int × List Char :=
    match cs with
    | '+' :: r => (1, r)
    | '-' :: r => (-1, r)
    | _ => (1, cs)
  let sgn := sgncs.1
  let ipRest := takeDigits sgncs.2
  let ip := ipRest.1
  let fpRest : Option (List Char) × List Char :=
    match ipRest.2 with
    | '.' :: r =>
      match takeDigits r with
      | (d, r2) => (some d, r2)
    | r => (none, r)
  let fp := (fpRest.1).getD []
  if ip.isEmpty && fp.isEmpty then none
  else
    let m0 : Int := sgn * (digitsNat (ip ++ fp) : Int)
    match fpRest.2 with
    | [] => some (Dec.make m0 0 fp.length)
    | e :: r =>
      if e = 'e' ∨ e = 'E' then
        let esgnr : Int × List Char :=
          match r with
          | '+' :: r2 => (1, r2)
          | '-' :: r2 => (-1, r2)
          | _ => (1, r)
        match takeDigits esgnr.2 with
        | (ed, rest2) =>
          if ed.isEmpty ∨ ¬ rest2.isEmpty then none
          else some (Dec.make m0 (esgnr.1 * (digitsNat ed : Int)) fp.length)
      else none

/-! ### Label extraction: `Mol3DViewer._parse_xyz_atoms` -/

/-- One parsed atom: element symbol with three coordinates. -/
abbrev Atom := String × Dec × Dec × Dec

/-- Classify one candidate atom line of an XYZ body, following the loop body
of `_parse_xyz_atoms`: `some none` when the line has fewer than 4
whitespace-separated fields (the line is skipped), `some (some a)` when the
first four fields parse as `element x y z`, and `none` when the line has at
least 4 fields but a coordinate field is not numeric (Python `float` raises
`ValueError`, aborting the enclosing `try`). -/
def xyzLineResult (l : List Char) : Option (Option Atom) :=
  let parts := splitWs l
  if parts.length ≥ 4 then
    match pyFloat (parts.getD 1 []), pyFloat (parts.getD 2 []), pyFloat (parts.getD 3 []) with
    | some x, some y, some z => some (some (String.mk (parts.getD 0 []), x, y, z))
    | _, _, _ => none
  else some none

/-- The line list examined by `_parse_xyz_atoms`:
`xyz_data.strip().split('\n')`. -/
def xyzLinesOf (d : List Char) : List (List Char) :=
  splitNl (pyStrip d)

/-- The indices `range(2, min(2 + natoms, len(lines)))` visited by the
parsing loop; empty when the header is missing or malformed. -/
def xyzConsidered (d : List Char) : List Nat :=
  let lines := xyzLinesOf d
  if lines.length < 3 then []
  else
    match pyInt (lines.getD 0 []) with
    | none => []
    | some natoms =>
      let stop : Int := min (2 + natoms) (lines.length : Int)
      if stop ≤ 2 then [] else List.range' 2 (stop.toNat - 2)

/-- Run the parsing loop over the considered indices.  A `ValueError`
(`xyzLineResult _ = none`) anywhere poisons the whole run, matching the
`try` that wraps the entire loop in `_parse_xyz_atoms`. -/
def xyzCollect (lines : List (List Char)) : List Nat → Option (List Atom)
  | [] => some []
  | i :: is =>
    match xyzLineResult (lines.getD i []) with
    | none => none
    | some none => xyzCollect lines is
    | some (some a) =>
      match xyzCollect lines is with
      | none => none
      | some as => some (a :: as)

/-- `Mol3DViewer._parse_xyz_atoms` (viewer.py lines 773-790): returns the
parsed atoms, or the empty list when the input is too short, the atom-count
header is not an integer, or any considered line raises `ValueError`. -/
def parse_xyz_atoms (d : List Char) : List Atom :=
  match xyzCollect (xyzLinesOf d) (xyzConsidered d) with
  | none => []
  | some as => as

/-! ### PDB and SDF label extraction -/

/-- Python slicing `l[a:b]` on strings (out-of-range indices clamp). -/
def pySlice (l : List Char) (a b : Nat) : List Char :=
  (l.drop a).take (b - a)

/-- Python `str.startswith(p)`. -/
def pyStartsWith (p : List Char) (l : List Char) : Bool :=
  l.take p.length = p

/-- One `ATOM`/`HETATM` record of `_parse_pdb_atoms`: fixed columns 30-38,
38-46, 46-54 hold the coordinates; the element is columns 76-78, falling
back to the first character of the atom-name field (columns 12-16).  Lines
shorter than 54 characters and lines whose coordinate text does not parse
are skipped (`continue`). -/
def pdbLineAtom (l : List Char) : Option Atom :=
  if l.length ≥ 54 then
    let elem78 := pyStrip (pySlice l 76 78)
    let element := if elem78.isEmpty then (pyStrip (pySlice l 12 16)).take 1 else elem78
    match pyFloat (pySlice l 30 38), pyFloat (pySlice l 38 46), pyFloat (pySlice l 46 54) with
    | some x, some y, some z => some (String.mk element, x, y, z)
    | _, _, _ => none
  else none

/-- `Mol3DViewer._parse_pdb_atoms` (viewer.py lines 792-809). -/
def parse_pdb_atoms (d : List Char) : List Atom :=
  (splitNl (pyStrip d)).filterMap fun l =>
    if pyStartsWith "ATOM".data l || pyStartsWith "HETATM".data l then pdbLineAtom l
    else none

/-- `range(a, b)` over a natural lower and integral upper bound. -/
def pyRange (a : Nat) (b : Int) : List Nat :=
  if b ≤ (a : Int) then [] else List.range' a (b.toNat - a)

/-- One atom line of `_parse_sdf_atoms`: three 10-character coordinate
columns then a 3-character element field at columns 31-34.  Short lines are
skipped; a `ValueError` (`none`) aborts the whole parse. -/
def sdfLineResult (l : List Char) : Option (Option Atom) :=
  if l.length ≥ 34 then
    match pyFloat (pySlice l 0 10), pyFloat (pySlice l 10 20), pyFloat (pySlice l 20 30) with
    | some x, some y, some z => some (some (String.mk (pyStrip (pySlice l 31 34)), x, y, z))
    | _, _, _ => none
  else some none

/-- The loop of `_parse_sdf_atoms`, with the same whole-parse `try`
poisoning as the XYZ loop. -/
def sdfCollect (lines : List (List Char)) : List Nat → Option (List Atom)
  | [] => some []
  | i :: is =>
    match sdfLineResult (lines.getD i []) with
    | none => none
    | some none => sdfCollect lines is
    | some (some a) =>
      match sdfCollect lines is with
      | none => none
      | some as => some (a :: as)

/-- `Mol3DViewer._parse_sdf_atoms` (viewer.py lines 811-834). -/
def parse_sdf_atoms (d : List Char) : List Atom :=
  let lines := splitNl (pyStrip d)
  if lines.length < 4 then []
  else
    match pyInt (pySlice (lines.getD 3 []) 0 3) with
    | none => []
    | some atom_count =>
      match sdfCollect lines (pyRange 4 (min (4 + atom_count) (lines.length : Int))) with
      | none => []
      | some as => as

/-! ### Gaussian COM/GJF conversion (`_manual_gaussian_to_xyz`)

The optional converters (`openbabel`, `cclib`) are absent in the modelled
environment (`HAS_OPENBABEL = HAS_CCLIB = False`), so
`_convert_gaussian_to_xyz` always uses the manual parser. -/

/-- Zero-padded 6-digit fraction for `fmt6`. -/
def pad6 (f : Nat) : List Char :=
  let d := (Nat.repr f).data
  List.replicate (6 - d.length) '0' ++ d

/-- The Python format `f-string` directive `.6f` on an exact decimal:
render with exactly six digits after the point, rounding half away from
zero at rational precision (an approximation of CPython's binary-float
rendering that agrees on all exactly-representable inputs this repository
produces; no claim evaluates this function on a concrete input). -/
def fmt6 (x : Dec) : List Char :=
  let n : Int :=
    if x.exp ≤ 6 then x.mant * 10 ^ (6 - x.exp)
    else (2 * x.mant + 10 ^ (x.exp - 6)) / (2 * 10 ^ (x.exp - 6))
  let sign : List Char := if n < 0 then ['-'] else []
  let m := n.natAbs
  sign ++ (Nat.repr (m / 1000000)).data ++ '.' :: pad6 (m % 1000000)

/-- `f"{element} {x:.6f} {y:.6f} {z:.6f}"`. -/
def fmtAtomLine (a : Atom) : List Char :=
  a.1.data ++ ' ' :: fmt6 a.2.1 ++ ' ' :: fmt6 a.2.2.1 ++ ' ' :: fmt6 a.2.2.2

/-- Find the Gaussian charge/multiplicity line: the first line with exactly
two whitespace-separated integer fields; the molecule specification starts
on the following line. -/
def findCoordStart : List (List Char) → Nat → Option Nat
  | [], _ => none
  | l :: ls, i =>
    let parts := splitWs (pyStrip l)
    if parts.length = 2 ∧ (pyInt (parts.getD 0 [])).isSome ∧ (pyInt (parts.getD 1 [])).isSome
    then some (i + 1)
    else findCoordStart ls (i + 1)

/-- The coordinate loop of `_manual_gaussian_to_xyz`: stop at an empty line
or a line starting with `%` or `#`; skip lines with fewer than 4 fields;
stop (`break`) at the first line whose coordinates fail to parse. -/
def gaussAtoms : List (List Char) → List Atom → List Atom
  | [], acc => acc
  | l :: ls, acc =>
    let line := pyStrip l
    if line.isEmpty || line.take 1 = ['%'] || line.take 1 = ['#'] then acc
    else
      let parts := splitWs line
      if parts.length ≥ 4 then
        match pyFloat (parts.getD 1 []), pyFloat (parts.getD 2 []), pyFloat (parts.getD 3 []) with
        | some x, some y, some z =>
          gaussAtoms ls (acc ++ [(String.mk (parts.getD 0 []), x, y, z)])
        | _, _, _ => acc
      else gaussAtoms ls acc

/-- `Mol3DViewer._manual_gaussian_to_xyz` (viewer.py lines 710-754):
produces the rebuilt XYZ text, or a `ValueError` (`Except.error`). -/
def manual_gaussian_to_xyz (d : List Char) : Except Unit (List Char) :=
  let lines := splitNl (pyStrip d)
  match findCoordStart lines 0 with
  | none => .error ()
  | some cs =>
    let atoms := gaussAtoms (lines.drop cs) []
    if atoms.isEmpty then .error ()
    else
      .ok (joinNl ((Nat.repr atoms.length).data ::
        "Converted from Gaussian format".data :: atoms.map fmtAtomLine))

/-- `Mol3DViewer._convert_gaussian_to_xyz` (viewer.py lines 643-664) with
the optional converter packages absent. -/
def convert_gaussian_to_xyz (d : List Char) : Except Unit (List Char × List Char) :=
  (manual_gaussian_to_xyz d).map fun xyz => (xyz, "xyz".data)

/-- `Mol3DViewer._parse_atoms_for_labels` (viewer.py lines 756-771):
dispatch on the lowercased format tag; unknown formats give an empty list;
the Gaussian path can raise. -/
def parse_atoms_for_labels (dataS ft : List Char) : Except Unit (List Atom) :=
  let f := pyLower ft
  if f = "xyz".data then .ok (parse_xyz_atoms dataS)
  else if f = "pdb".data then .ok (parse_pdb_atoms dataS)
  else if f = "sdf".data ∨ f = "mol".data then .ok (parse_sdf_atoms dataS)
  else if f = "com".data ∨ f = "gjf".data then
    match convert_gaussian_to_xyz dataS with
    | .ok (xyz, _) => .ok (parse_xyz_atoms xyz)
    | .error e => .error e
  else .ok []

/-- `Mol3DViewer._convert_to_3dmol_format` (viewer.py lines 623-641). -/
def convert_to_3dmol_format (dataS ft : List Char) :
    Except Unit (List Char × List Char) :=
  let f := pyLower ft
  if f = "xyz".data ∨ f = "pdb".data ∨ f = "sdf".data then .ok (dataS, f)
  else if f = "mol".data then .ok (dataS, "sdf".data)
  else if f = "com".data ∨ f = "gjf".data then convert_gaussian_to_xyz dataS
  else .ok (dataS, "xyz".data)

/-! ### The `Mol3DViewer` widget state -/

/-- A label: text plus a placement-options dictionary (values are carried
as uninterpreted strings; the widget never inspects them).  Mirrors both
`_labels_list` and the `labels` parameter, which the source keeps equal. -/
abbrev Label := String × List (String × String)

/-- The parameters and private attributes of `Mol3DViewer`
(viewer.py lines 40-63 and 617-621).  `structure_` stands for the Python
parameter `structure` (a Lean keyword). -/
structure Mol3DViewer where
  structure_ : String
  filetype : String
  background_color : String
  show_stick : Bool
  show_sphere : Bool
  show_cartoon : Bool
  show_surface : Bool
  show_line : Bool
  labels : List Label
  show_atom_labels : Bool
  current_frame : Int
  total_frames : Int
  animate : Bool
  animation_speed : Int
  animate_options : List (String × String)
  parsed_atoms : List Atom
  updating_frame : Bool
  frame_structures : List String
deriving Repr, DecidableEq

/-- The default-constructed widget (all `param` defaults). -/
def mol3dDefault : Mol3DViewer :=
  { structure_ := "", filetype := "xyz", background_color := "white",
    show_stick := true, show_sphere := true, show_cartoon := false,
    show_surface := false, show_line := false, labels := [],
    show_atom_labels := false, current_frame := 0, total_frames := 1,
    animate := false, animation_speed := 100, animate_options := [],
    parsed_atoms := [], updating_frame := false, frame_structures := [] }

/-- A `param` bounds violation (`ValueError` naming the parameter). -/
inductive ParamError where
  | boundsError (param : String)
deriving Repr, DecidableEq

/-- What a method hands back to the caller on normal return. -/
inductive PyRet where
  | selfRef
  | intVal (n : Int)
deriving Repr, DecidableEq

deriving instance DecidableEq for Except

/-- Result of a Python method call: a normal return value with the updated
widget, or a raised error carrying the widget as mutated up to the raise
(Python attribute writes performed before an exception persist). -/
abbrev PyM := Except (ParamError × Mol3DViewer) (PyRet × Mol3DViewer)

/-- Validated write of `current_frame` (`param.Integer`, bounds `(0, None)`). -/
def writeCurrentFrame (s : Mol3DViewer) (v : Int) :
    Except (ParamError × Mol3DViewer) Mol3DViewer :=
  if 0 ≤ v then .ok { s with current_frame := v }
  else .error (.boundsError "current_frame", s)

/-- Validated write of `total_frames` (`param.Integer`, bounds `(1, None)`).
This is also the model of a direct host-side write of the public
`total_frames` parameter. -/
def writeTotalFrames (s : Mol3DViewer) (v : Int) :
    Except (ParamError × Mol3DViewer) Mol3DViewer :=
  if 1 ≤ v then .ok { s with total_frames := v }
  else .error (.boundsError "total_frames", s)

/-- Validated write of `animation_speed` (`param.Number`, bounds
`(1, 10000)`, inclusive).  Call sites in this repository pass integral
speeds, so the numeric carrier is `Int`. -/
def writeAnimationSpeed (s : Mol3DViewer) (v : Int) :
    Except (ParamError × Mol3DViewer) Mol3DViewer :=
  if 1 ≤ v ∧ v ≤ 10000 then .ok { s with animation_speed := v }
  else .error (.boundsError "animation_speed", s)

/-! ### py3dmol-compatible API methods (viewer.py lines 838-1057) -/

/-- `Mol3DViewer.addModel`: convert, store structure and filetype, parse
atoms for labels; every exception is caught, falling back to the original
data, so the method always returns `self`. -/
def addModel (s : Mol3DViewer) (dataS format : String) : PyM :=
  match convert_to_3dmol_format dataS.data format.data with
  | .ok (cd, cf) =>
    match parse_atoms_for_labels dataS.data format.data with
    | .ok atoms =>
      .ok (.selfRef, { s with structure_ := String.mk cd, filetype := String.mk cf,
                              parsed_atoms := atoms })
    | .error _ =>
      .ok (.selfRef, { s with structure_ := dataS, filetype := format,
                              parsed_atoms := [] })
  | .error _ =>
    match parse_atoms_for_labels dataS.data format.data with
    | .ok atoms =>
      .ok (.selfRef, { s with structure_ := dataS, filetype := format,
                              parsed_atoms := atoms })
    | .error _ =>
      .ok (.selfRef, { s with structure_ := dataS, filetype := format,
                              parsed_atoms := [] })

/-- `Mol3DViewer.setStyle`: each display flag becomes exactly "the key is
present in the style dict"; if none of the five keys is present, fall back
to stick and sphere.  The `selection` argument is accepted and ignored, as
in the source. -/
def setStyle (s : Mol3DViewer) (_selection : List String) (style : List String) : PyM :=
  let st := style.contains "stick"
  let sp := style.contains "sphere"
  let ca := style.contains "cartoon"
  let li := style.contains "line"
  let su := style.contains "surface"
  if st || sp || ca || li || su then
    .ok (.selfRef, { s with show_stick := st, show_sphere := sp, show_cartoon := ca,
                            show_line := li, show_surface := su })
  else
    .ok (.selfRef, { s with show_stick := true, show_sphere := true,
                            show_cartoon := false, show_line := false,
                            show_surface := false })

/-- The style object assembled by the JavaScript `structure` script
(viewer.py lines 179-191): the union of the true flags in insertion order,
falling back to stick and sphere when empty. -/
inductive StyleRepr where
  | stick
  | sphere
  | cartoon
  | line
  | surface
deriving Repr, DecidableEq

/-- Build the applied style from the display flags (JS lines 180-191). -/
def buildStyle (s : Mol3DViewer) : List StyleRepr :=
  let style :=
    (if s.show_stick then [StyleRepr.stick] else []) ++
    (if s.show_sphere then [StyleRepr.sphere] else []) ++
    (if s.show_cartoon then [StyleRepr.cartoon] else []) ++
    (if s.show_line then [StyleRepr.line] else []) ++
    (if s.show_surface then [StyleRepr.surface] else [])
  if style.isEmpty then [StyleRepr.stick, StyleRepr.sphere] else style

/-- `Mol3DViewer.setBackgroundColor`. -/
def setBackgroundColor (s : Mol3DViewer) (color : String) : PyM :=
  .ok (.selfRef, { s with background_color := color })

/-- `Mol3DViewer.render`: only re-triggers the JS `structure` script. -/
def render (s : Mol3DViewer) : PyM :=
  .ok (.selfRef, s)

/-- `Mol3DViewer.clear`. -/
def clear (s : Mol3DViewer) : PyM :=
  .ok (.selfRef, { s with structure_ := "" })

/-- `Mol3DViewer.center`: only re-triggers the JS `structure` script. -/
def center (s : Mol3DViewer) : PyM :=
  .ok (.selfRef, s)

/-- `Mol3DViewer.addLabel` (default `options=None` becomes `{}`). -/
def addLabel (s : Mol3DViewer) (text : String)
    (options : Option (List (String × String))) : PyM :=
  .ok (.selfRef, { s with labels := s.labels ++ [(text, options.getD [])] })

/-- `Mol3DViewer.removeAllLabels`. -/
def removeAllLabels (s : Mol3DViewer) : PyM :=
  .ok (.selfRef, { s with labels := [] })

/-- `Mol3DViewer.showAtomLabels` (default `show=True`). -/
def showAtomLabels (s : Mol3DViewer) (show_ : Bool) : PyM :=
  .ok (.selfRef, { s with show_atom_labels := show_ })

/-- `Mol3DViewer.setFrame` (viewer.py lines 979-985): write the frame only
when `0 <= frame < total_frames`, briefly raising the `_updating_frame`
flag; otherwise do nothing.  Always returns `self`. -/
def setFrame (s : Mol3DViewer) (frame : Int) : PyM :=
  if 0 ≤ frame ∧ frame < s.total_frames then
    .ok (.selfRef, { s with current_frame := frame, updating_frame := false })
  else
    .ok (.selfRef, s)

/-- `Mol3DViewer.getFrame`. -/
def getFrame (s : Mol3DViewer) : PyM :=
  .ok (.intVal s.current_frame, s)

/-- Python `dict` insertion/override of one key. -/
def dictSet (d : List (String × String)) (k v : String) : List (String × String) :=
  if d.any (fun kv => kv.1 = k) then d.map (fun kv => if kv.1 = k then (k, v) else kv)
  else d ++ [(k, v)]

/-- Python `dict.update`. -/
def dictUpdate (d : List (String × String)) : List (String × String) → List (String × String)
  | [] => d
  | (k, v) :: rest => dictUpdate (dictSet d k v) rest

/-- `Mol3DViewer.startAnimation` (viewer.py lines 991-1004): optionally
write the speed (validated), merge `{'loop': loop_mode}` with the extra
options, store them, and set `animate`. -/
def startAnimation (s : Mol3DViewer) (speed : Option Int) (loop_mode : String)
    (animate_options : List (String × String)) : PyM :=
  let afterSpeed :=
    match speed with
    | some v => writeAnimationSpeed s v
    | none => .ok s
  match afterSpeed with
  | .error e => .error e
  | .ok s1 =>
    let options := dictUpdate [("loop", loop_mode)] animate_options
    .ok (.selfRef, { s1 with animate_options := options, animate := true })

/-- `Mol3DViewer.stopAnimation`. -/
def stopAnimation (s : Mol3DViewer) : PyM :=
  .ok (.selfRef, { s with animate := false })

/-- `Mol3DViewer.setAnimationSpeed`: a bare validated parameter write. -/
def setAnimationSpeed (s : Mol3DViewer) (speed : Int) : PyM :=
  match writeAnimationSpeed s speed with
  | .ok s1 => .ok (.selfRef, s1)
  | .error e => .error e

/-- `Mol3DViewer.setAnimationOptions`. -/
def setAnimationOptions (s : Mol3DViewer) (options : List (String × String)) : PyM :=
  .ok (.selfRef, { s with animate_options := options })

/-- The `structures` argument of `addFrames`: a list of structures or a
single structure text. -/
inductive StructuresArg where
  | list (l : List String)
  | single (t : String)

/-- `Mol3DViewer.addFrames` (viewer.py lines 1027-1057): for a list,
concatenate stripped XYZ frames (or take the first structure for other
formats) into `structure`, then write `total_frames := len(structures)`
(which raises for an empty list, after `structure` was already
overwritten) and reset `current_frame` to 0. -/
def addFrames (s : Mol3DViewer) (structures : StructuresArg)
    (filetype : Option String) : PyM :=
  let ft := filetype.getD s.filetype
  match structures with
  | .list structs =>
    let s1 :=
      if ft = "xyz" then
        { s with structure_ := String.mk (joinNl (structs.map fun t => pyStrip t.data)) }
      else
        { s with structure_ := structs.headD "" }
    match writeTotalFrames s1 (structs.length : Int) with
    | .error e => .error e
    | .ok s2 =>
      match writeCurrentFrame s2 0 with
      | .error e => .error e
      | .ok s3 => .ok (.selfRef, { s3 with frame_structures := structs })
  | .single t =>
    let s1 := { s with structure_ := t }
    match writeTotalFrames s1 1 with
    | .error e => .error e
    | .ok s2 =>
      match writeCurrentFrame s2 0 with
      | .error e => .error e
      | .ok s3 => .ok (.selfRef, { s3 with frame_structures := [t] })

/-! ### `AnimatedMolecularViewer` (refactored_animated_viewer.py)

The loop-mode advance rule and the bidirectional frame synchronisation
between the dashboard parameter and the embedded viewer parameter. -/

/-- The three values of the `loop_mode` `param.Selector`. -/
inductive LoopMode where
  | forward
  | backward
  | pingpong
deriving Repr, DecidableEq

/-- The next-frame computation shared by `animation_step`
(refactored_animated_viewer.py lines 497-508) and `advance_frame`
(lines 577-600): given the loop mode, the frame count, the current frame
and the signed pingpong direction, produce the next frame and direction.
Python `%` on a positive modulus is euclidean remainder, as is Lean's
`Int` `%`. -/
def animation_step (mode : LoopMode) (num_frames : Int) (frame dir : Int) : Int × Int :=
  match mode with
  | .forward => ((frame + 1) % num_frames, dir)
  | .backward => ((frame - 1) % num_frames, dir)
  | .pingpong =>
    let next := frame + dir
    if next ≥ num_frames - 1 then (num_frames - 1, -1)
    else if next ≤ 0 then (0, 1)
    else (next, dir)

/-- The frames visited by `n` successive animation steps. -/
def stepTrace (mode : LoopMode) (num_frames : Int) : Nat → Int × Int → List Int
  | 0, _ => []
  | n + 1, fd =>
    let fd' := animation_step mode num_frames fd.1 fd.2
    fd'.1 :: stepTrace mode num_frames n fd'

/-- The state touched by the bidirectional frame synchronisation:
the dashboard's `current_frame` parameter (bounds `(0, num_frames - 1)`),
the embedded viewer's `current_frame` parameter (bounds `(0, None)`), the
`_updating_from_panel` reentrancy flag, and a log of every frame-seek the
synchroniser pushes to the embedded viewer (a write of the viewer's
`current_frame` to a new value, which the JS `current_frame` script turns
into `viewer.setFrame`). -/
structure AnimSync where
  current_frame : Int
  num_frames : Int
  mol_current_frame : Int
  updating_from_panel : Bool
  seeks : List Int
deriving Repr, DecidableEq

/-- Outcome of a synchronisation step: normal completion, a `param`
bounds `ValueError` propagating out of a watcher, or recursion past the
modelling fuel (never reached with fuel 3, as proved below). -/
inductive SyncStatus where
  | ok
  | raised
  | outOfFuel
deriving Repr, DecidableEq

/-- A parameter write entering the synchroniser: a write of the embedded
viewer's `current_frame` (`fromSync` tells whether the synchroniser itself
issued it, i.e. whether it counts as a seek), or a write of the
dashboard's `current_frame`. -/
inductive SyncAct where
  | writeMol (fromSync : Bool) (v : Int)
  | writePanel (v : Int)

/-- One `param` write plus the watcher cascade it triggers:
`on_mol_viewer_frame_change` (refactored_animated_viewer.py lines 160-163)
watches the viewer parameter and copies a genuinely new frame into the
dashboard parameter unless `_updating_from_panel` is set;
`on_frame_change` (lines 371-392) watches the dashboard parameter, sets
the flag, pushes the frame to the viewer parameter, and clears the flag
(the flag is not cleared if the inner write raises, as in the source,
which has no `finally`).  `param` validates bounds before assigning and
only notifies watchers on a change of value. -/
def syncRun : Nat → AnimSync → SyncAct → AnimSync × SyncStatus
  | 0, s, _ => (s, .outOfFuel)
  | f + 1, s, .writeMol fromSync v =>
    if v < 0 then (s, .raised)
    else if s.mol_current_frame = v then (s, .ok)
    else
      let s1 := { s with mol_current_frame := v,
                         seeks := if fromSync then s.seeks ++ [v] else s.seeks }
      if v ≠ s1.current_frame ∧ s1.updating_from_panel = false then
        syncRun f s1 (.writePanel v)
      else (s1, .ok)
  | f + 1, s, .writePanel v =>
    if v < 0 ∨ s.num_frames - 1 < v then (s, .raised)
    else if s.current_frame = v then (s, .ok)
    else
      let s2 := { s with current_frame := v, updating_from_panel := true }
      match syncRun f s2 (.writeMol true v) with
      | (s3, .ok) => ({ s3 with updating_from_panel := false }, .ok)
      | (s3, st) => (s3, st)

/-- The external viewer reporting frame `k` back to the synchroniser: the
JS polling loop assigns `data.current_frame = k`, a viewer-parameter write
that did not originate from the synchroniser. -/
def processReport (s : AnimSync) (k : Int) : AnimSync × SyncStatus :=
  syncRun 3 s (.writeMol false k)

/-! ### Claim theorems -/

/-- The invariant claimed for the animation state:
`0 <= current_frame < total_frames`. -/
def frameInvariant (s : Mol3DViewer) : Prop :=
  0 ≤ s.current_frame ∧ s.current_frame < s.total_frames

instance (s : Mol3DViewer) : Decidable (frameInvariant s) := by
  unfold frameInvariant; infer_instance

/-- A method call returned `self` (rather than raising). -/
def returnsSelf (r : PyM) : Prop :=
  ∃ s', r = .ok (.selfRef, s')

/-- Whether any of the five representation keys occurs in a style dict
(represented by its key list). -/
def anyStyleKey (style : List String) : Bool :=
  style.contains "stick" || style.contains "sphere" || style.contains "cartoon" ||
    style.contains "line" || style.contains "surface"

/-- Modelled from the spec (claim C3): the applied style is the union of
the requested representation keys, falling back to the pair
stick-and-sphere when that union is empty. -/
def specStyleOfDict (style : List String) : List StyleRepr :=
  if anyStyleKey style then
    (if style.contains "stick" then [StyleRepr.stick] else []) ++
    (if style.contains "sphere" then [StyleRepr.sphere] else []) ++
    (if style.contains "cartoon" then [StyleRepr.cartoon] else []) ++
    (if style.contains "line" then [StyleRepr.line] else []) ++
    (if style.contains "surface" then [StyleRepr.surface] else [])
  else [StyleRepr.stick, StyleRepr.sphere]

/-- Helper: `addFrames` on a nonempty structure list succeeds, joining the
stripped frames for XYZ (first structure otherwise) and resetting the
frame counters. -/
theorem addFrames_cons (s : Mol3DViewer) (ft : Option String) (t : String)
    (rest : List String) :
    addFrames s (.list (t :: rest)) ft =
      .ok (.selfRef,
        { s with
            structure_ :=
              if ft.getD s.filetype = "xyz" then
                String.mk (joinNl ((t :: rest).map fun u => pyStrip u.data))
              else t,
            total_frames := ((t :: rest).length : Int),
            current_frame := 0,
            frame_structures := t :: rest }) := by
  have hlen : (1 : Int) ≤ ((t :: rest).length : Int) := by
    simp
  by_cases hx : ft.getD s.filetype = "xyz" <;>
    simp [addFrames, hx, writeTotalFrames, writeCurrentFrame, if_pos hlen]

/-- Helper: `addFrames` on a single structure succeeds with one frame. -/
theorem addFrames_single (s : Mol3DViewer) (ft : Option String) (t : String) :
    addFrames s (.single t) ft =
      .ok (.selfRef,
        { s with structure_ := t, total_frames := 1, current_frame := 0,
                 frame_structures := [t] }) := by
  rfl

/-- Helper: `addFrames` on an empty list raises the `total_frames` bounds
error after `structure` has been overwritten. -/
theorem addFrames_nil (s : Mol3DViewer) (ft : Option String) :
    addFrames s (.list []) ft =
      .error (.boundsError "total_frames", { s with structure_ := "" }) := by
  by_cases h : ft.getD s.filetype = "xyz"
  · simp only [addFrames, h, if_true, eq_self_iff_true]
    rfl
  · simp only [addFrames, h, if_false, iff_false]
    rfl

/-- Helper: the XYZ parsing loop over indices none of which raises
produces exactly the well-formed atoms, skipping short lines. -/
theorem xyzCollect_no_fatal (lines : List (List Char)) (idxs : List Nat)
    (h : ∀ i ∈ idxs, xyzLineResult (lines.getD i []) ≠ none) :
    xyzCollect lines idxs =
      some (idxs.filterMap fun i => (xyzLineResult (lines.getD i [])).join) := by
  induction idxs with
  | nil => rfl
  | cons i is ih =>
    have hi := h i (by simp)
    have hrest : ∀ j ∈ is, xyzLineResult (lines.getD j []) ≠ none :=
      fun j hj => h j (by simp [hj])
    cases hx : xyzLineResult (lines.getD i []) with
    | none => exact absurd hx hi
    | some o =>
      cases o with
      | none =>
        simp only [xyzCollect, hx, List.filterMap_cons, Option.join, Option.bind, id_eq]
        exact ih hrest
      | some a =>
        simp only [xyzCollect, hx, ih hrest, List.filterMap_cons, Option.join,
          Option.bind, id_eq]

/-- Helper: one raising line poisons the whole XYZ parsing loop. -/
theorem xyzCollect_fatal (lines : List (List Char)) (idxs : List Nat)
    (h : ∃ i ∈ idxs, xyzLineResult (lines.getD i []) = none) :
    xyzCollect lines idxs = none := by
  induction idxs with
  | nil => simp at h
  | cons i is ih =>
    rcases h with ⟨j, hj, hnone⟩
    rcases List.mem_cons.mp hj with rfl | hj'
    · simp only [xyzCollect, hnone]
    · cases hx : xyzLineResult (lines.getD i []) with
      | none => simp only [xyzCollect, hx]
      | some o =>
        have hrec := ih ⟨j, hj', hnone⟩
        cases o <;> simp only [xyzCollect, hx, hrec]

/-- Claim C4: in pingpong loop mode with `total_frames = 4`, starting at
frame 0 with forward direction, repeated animation steps visit exactly
0, 1, 2, 3, 2, 1, 0, 1, 2, …: the direction flips exactly on reaching a
boundary frame (0 or 3), which is neither skipped nor repeated. -/
theorem pingpong_sequence_four_frames :
    0 :: stepTrace .pingpong 4 8 (0, 1) = [0, 1, 2, 3, 2, 1, 0, 1, 2] := by
  decide

/-- Claim C7: loading the water XYZ structure through `addModel` with
format `xyz` stores the structure text unchanged and extracts exactly the
three labelled atoms `("O",0,0,0), ("H",1,0,0), ("H",-1,0,0)`, in order. -/
theorem addModel_xyz_roundtrip :
    addModel mol3dDefault "3\nWater\nO 0 0 0\nH 1 0 0\nH -1 0 0" "xyz" =
      .ok (.selfRef,
        { mol3dDefault with
            structure_ := "3\nWater\nO 0 0 0\nH 1 0 0\nH -1 0 0",
            parsed_atoms := [("O", 0, 0, 0), ("H", 1, 0, 0), ("H", -1, 0, 0)] }) := by
  decide

/-- Claim C9: for every frame index outside `[0, total_frames)`,
`setFrame` raises no error, changes nothing, and still returns `self`:
the out-of-range seek is a silent no-op. -/
theorem setFrame_out_of_range_noop (s : Mol3DViewer) (n : Int)
    (h : n < 0 ∨ s.total_frames ≤ n) :
    setFrame s n = .ok (.selfRef, s) := by
  unfold setFrame
  rw [if_neg]
  omega

/-- Witness for `setFrame_out_of_range_noop` at the concrete out-of-range
index `-3` on the default widget. -/
theorem setFrame_out_of_range_noop_witness :
    setFrame mol3dDefault (-3) = .ok (.selfRef, mol3dDefault) :=
  setFrame_out_of_range_noop mol3dDefault (-3) (Or.inl (by decide))

/-- Claim C10: for every format tag, `addFrames` with an empty list raises
the `total_frames` bounds error (the write of 0 violates the declared
lower bound 1), and the failure is not atomic: the raised-at state already
has `structure` overwritten with the empty string. -/
theorem addFrames_empty_list_raises_nonatomic (s : Mol3DViewer) (ft : Option String) :
    addFrames s (.list []) ft =
      .error (.boundsError "total_frames", { s with structure_ := "" }) :=
  addFrames_nil s ft

/-- Claim C2: processing a frame value `k` reported back from the external
viewer (a viewer-parameter write that did not originate from the
synchroniser) never makes the synchroniser re-issue a frame-seek to the
same viewer: the seek log is unchanged, in every outcome of the cascade. -/
theorem report_processing_issues_no_seek (s : AnimSync) (k : Int) :
    (processReport s k).1.seeks = s.seeks := by
  unfold processReport
  by_cases h1 : k < 0
  · simp [syncRun, h1]
  by_cases h2 : s.mol_current_frame = k
  · simp [syncRun, h1, h2]
  by_cases h3 : k ≠ s.current_frame ∧ s.updating_from_panel = false
  · by_cases h4 : s.num_frames - 1 < k
    · simp [syncRun, h1, h2, h3, h4]
    · by_cases h5 : s.current_frame = k
      · simp [syncRun, h1, h2, h3, h4, h5]
      · simp [syncRun, h1, h2, h3, h4, h5]
  · simp [syncRun, h1, h2, h3]

/-- Claim C1 (amended): after `addFrames` (list or single argument) the
new state has `current_frame = 0` — a reset to 0, not a clamp to
`total_frames - 1` — so the invariant `0 <= current_frame < total_frames`
holds; but a successful direct write of the public `total_frames`
parameter leaves `current_frame` untouched (no re-clamp happens on the
Python side), so the invariant can be violated there. -/
theorem addFrames_resets_current_frame :
    (∀ (s : Mol3DViewer) (ft : Option String) (t : String) (rest : List String),
      ∃ s', addFrames s (.list (t :: rest)) ft = .ok (.selfRef, s') ∧
        s'.current_frame = 0 ∧ frameInvariant s') ∧
    (∀ (s : Mol3DViewer) (ft : Option String) (t : String),
      ∃ s', addFrames s (.single t) ft = .ok (.selfRef, s') ∧
        s'.current_frame = 0 ∧ frameInvariant s') ∧
    (∀ (s s' : Mol3DViewer) (v : Int),
      writeTotalFrames s v = .ok s' → s'.current_frame = s.current_frame) := by
  refine ⟨?_, ?_, ?_⟩
  · intro s ft t rest
    refine ⟨_, addFrames_cons s ft t rest, rfl, ?_⟩
    constructor
    · simp
    · simp
  · intro s ft t
    refine ⟨_, addFrames_single s ft t, rfl, ?_⟩
    constructor
    · simp
    · simp
  · intro s s' v h
    unfold writeTotalFrames at h
    split at h
    · simp only [Except.ok.injEq] at h
      subst h
      rfl
    · exact absurd h (by simp)

/-- Witness for `addFrames_resets_current_frame`: a direct write of
`total_frames` to 3 on the default widget leaves `current_frame` at its
previous value. -/
theorem addFrames_resets_current_frame_witness :
    ({ mol3dDefault with total_frames := 3 } : Mol3DViewer).current_frame =
      mol3dDefault.current_frame :=
  addFrames_resets_current_frame.2.2 mol3dDefault
    { mol3dDefault with total_frames := 3 } 3 (by rfl)

/-- Counterexample for claim C1 as stated: a direct write of the public
`total_frames` parameter from 5 down to 2, with `current_frame = 4`,
succeeds but does not reset `current_frame` to 0, leaving it out of the
claimed range `[0, total_frames)`. -/
theorem total_frames_write_skips_reclamp :
    writeTotalFrames { mol3dDefault with total_frames := 5, current_frame := 4 } 2 =
      .ok { mol3dDefault with total_frames := 2, current_frame := 4 } ∧
    ¬ frameInvariant { mol3dDefault with total_frames := 2, current_frame := 4 } := by
  constructor
  · rfl
  · decide

/-- Claim C3: `setStyle` turns each of the five display flags on exactly
when the corresponding key occurs in the style dict (falling back to
stick-and-sphere when none does), and the style the JS bridge then applies
equals the union of the requested representations, or the default pair
when that union is empty. -/
theorem setStyle_applies_union_or_default (s : Mol3DViewer) (sel style : List String) :
    setStyle s sel style =
      .ok (.selfRef,
        { s with
            show_stick := style.contains "stick" || !anyStyleKey style,
            show_sphere := style.contains "sphere" || !anyStyleKey style,
            show_cartoon := style.contains "cartoon",
            show_line := style.contains "line",
            show_surface := style.contains "surface" }) ∧
    buildStyle
        { s with
            show_stick := style.contains "stick" || !anyStyleKey style,
            show_sphere := style.contains "sphere" || !anyStyleKey style,
            show_cartoon := style.contains "cartoon",
            show_line := style.contains "line",
            show_surface := style.contains "surface" } =
      specStyleOfDict style := by
  by_cases h1 : "stick" ∈ style <;>
    by_cases h2 : "sphere" ∈ style <;>
      by_cases h3 : "cartoon" ∈ style <;>
        by_cases h4 : "line" ∈ style <;>
          by_cases h5 : "surface" ∈ style <;>
            exact ⟨by simp [setStyle, anyStyleKey, h1, h2, h3, h4, h5],
                   by simp [buildStyle, specStyleOfDict, anyStyleKey, h1, h2, h3, h4, h5]⟩

/-- Claim C5 (amended): an out-of-range animation speed passed to
`setAnimationSpeed` raises the `animation_speed` bounds error
(`InvalidParameter` surfaced to the caller), but an out-of-range frame
index passed to `setFrame` is silently ignored: no error, no state change,
and the instance is still returned. -/
theorem out_of_range_write_behaviour :
    (∀ (s : Mol3DViewer) (v : Int), v < 1 ∨ 10000 < v →
      setAnimationSpeed s v = .error (.boundsError "animation_speed", s)) ∧
    (∀ (s : Mol3DViewer) (n : Int), n < 0 ∨ s.total_frames ≤ n →
      setFrame s n = .ok (.selfRef, s)) := by
  constructor
  · intro s v h
    unfold setAnimationSpeed writeAnimationSpeed
    rw [if_neg (by omega)]
  · intro s n h
    unfold setFrame
    rw [if_neg (by omega)]

/-- Witness for `out_of_range_write_behaviour` at speed 0 and frame 5 on
the default widget. -/
theorem out_of_range_write_behaviour_witness :
    setAnimationSpeed mol3dDefault 0 =
      .error (.boundsError "animation_speed", mol3dDefault) ∧
    setFrame mol3dDefault 5 = .ok (.selfRef, mol3dDefault) :=
  ⟨out_of_range_write_behaviour.1 mol3dDefault 0 (Or.inl (by decide)),
   out_of_range_write_behaviour.2 mol3dDefault 5 (Or.inr (by decide))⟩

/-- Counterexample for claim C5 as stated: the frame index 7 is outside
`[0, total_frames)` on the default widget, yet `setFrame` returns normally
with nothing changed instead of failing with an `InvalidParameter`
error. -/
theorem setFrame_out_of_range_is_silent :
    mol3dDefault.total_frames ≤ 7 ∧
    setFrame mol3dDefault 7 = .ok (.selfRef, mol3dDefault) := by
  decide

/-- Claim C6 (amended): atom lines with fewer than 4 whitespace-separated
fields are skipped without aborting the parse, which returns exactly the
well-formed atoms of the considered lines; but one considered line with at
least 4 fields and a non-numeric coordinate raises `ValueError`, and the
whole extraction returns the empty list, discarding even the well-formed
atoms. -/
theorem parse_xyz_atoms_skip_and_abort (d : List Char) :
    ((∀ i ∈ xyzConsidered d, xyzLineResult ((xyzLinesOf d).getD i []) ≠ none) →
      parse_xyz_atoms d =
        (xyzConsidered d).filterMap fun i =>
          (xyzLineResult ((xyzLinesOf d).getD i [])).join) ∧
    ((∃ i ∈ xyzConsidered d, xyzLineResult ((xyzLinesOf d).getD i []) = none) →
      parse_xyz_atoms d = []) := by
  constructor
  · intro h
    unfold parse_xyz_atoms
    rw [xyzCollect_no_fatal (xyzLinesOf d) (xyzConsidered d) h]
  · intro h
    unfold parse_xyz_atoms
    rw [xyzCollect_fatal (xyzLinesOf d) (xyzConsidered d) h]

/-- Witness for `parse_xyz_atoms_skip_and_abort`: a short line is skipped
non-fatally in the first input; a non-numeric line empties the result in
the second. -/
theorem parse_xyz_atoms_skip_and_abort_witness :
    parse_xyz_atoms "2\nc\nO 1 2 3\nXx 9".data =
      ((xyzConsidered "2\nc\nO 1 2 3\nXx 9".data).filterMap fun i =>
        (xyzLineResult ((xyzLinesOf "2\nc\nO 1 2 3\nXx 9".data).getD i [])).join) ∧
    parse_xyz_atoms "2\ncomment\nO a b c\nH 1 0 0".data = [] :=
  ⟨(parse_xyz_atoms_skip_and_abort "2\nc\nO 1 2 3\nXx 9".data).1 (by decide),
   (parse_xyz_atoms_skip_and_abort "2\ncomment\nO a b c\nH 1 0 0".data).2 (by decide)⟩

/-- Counterexample for claim C6 as stated: in
`"2\ncomment\nO a b c\nH 1 0 0"` the line `O a b c` has non-numeric
coordinates; the claim says the well-formed `H 1 0 0` is still returned,
but the extraction returns the empty list. -/
theorem parse_xyz_nonnumeric_discards_all :
    parse_xyz_atoms "2\ncomment\nO a b c\nH 1 0 0".data = [] ∧
    ("H", (1 : Dec), 0, 0) ∉ parse_xyz_atoms "2\ncomment\nO a b c\nH 1 0 0".data := by
  decide

/-- Claim C8 (amended): every py3dmol-compatible host-facing method of
`Mol3DViewer` returns the same instance it was called on whenever it
returns normally — and the only abnormal returns are parameter-validation
errors: an out-of-range speed in `setAnimationSpeed` or `startAnimation`,
and an empty structure list in `addFrames`. -/
theorem methods_return_self_or_raise :
    (∀ (s : Mol3DViewer) (d f : String), returnsSelf (addModel s d f)) ∧
    (∀ (s : Mol3DViewer) (sel st : List String), returnsSelf (setStyle s sel st)) ∧
    (∀ (s : Mol3DViewer) (c : String), returnsSelf (setBackgroundColor s c)) ∧
    (∀ s : Mol3DViewer, returnsSelf (render s)) ∧
    (∀ s : Mol3DViewer, returnsSelf (clear s)) ∧
    (∀ s : Mol3DViewer, returnsSelf (center s)) ∧
    (∀ (s : Mol3DViewer) (t : String) (o : Option (List (String × String))),
      returnsSelf (addLabel s t o)) ∧
    (∀ s : Mol3DViewer, returnsSelf (removeAllLabels s)) ∧
    (∀ (s : Mol3DViewer) (b : Bool), returnsSelf (showAtomLabels s b)) ∧
    (∀ (s : Mol3DViewer) (n : Int), returnsSelf (setFrame s n)) ∧
    (∀ (s : Mol3DViewer) (lm : String) (ao : List (String × String)),
      returnsSelf (startAnimation s none lm ao)) ∧
    (∀ (s : Mol3DViewer) (v : Int) (lm : String) (ao : List (String × String)),
      returnsSelf (startAnimation s (some v) lm ao) ↔ 1 ≤ v ∧ v ≤ 10000) ∧
    (∀ s : Mol3DViewer, returnsSelf (stopAnimation s)) ∧
    (∀ (s : Mol3DViewer) (v : Int),
      returnsSelf (setAnimationSpeed s v) ↔ 1 ≤ v ∧ v ≤ 10000) ∧
    (∀ (s : Mol3DViewer) (o : List (String × String)),
      returnsSelf (setAnimationOptions s o)) ∧
    (∀ (s : Mol3DViewer) (ft : Option String) (t : String) (rest : List String),
      returnsSelf (addFrames s (.list (t :: rest)) ft)) ∧
    (∀ (s : Mol3DViewer) (ft : Option String) (t : String),
      returnsSelf (addFrames s (.single t) ft)) ∧
    (∀ (s : Mol3DViewer) (ft : Option String),
      ¬ returnsSelf (addFrames s (.list []) ft)) := by
  refine ⟨?_, ?_, ?_, ?_, ?_, ?_, ?_, ?_, ?_, ?_, ?_, ?_, ?_, ?_, ?_, ?_, ?_, ?_⟩
  · intro s d f
    unfold returnsSelf addModel
    split <;> split <;> exact ⟨_, rfl⟩
  · intro s sel st
    unfold returnsSelf setStyle
    dsimp only
    split <;> exact ⟨_, rfl⟩
  · exact fun s c => ⟨_, rfl⟩
  · exact fun s => ⟨_, rfl⟩
  · exact fun s => ⟨_, rfl⟩
  · exact fun s => ⟨_, rfl⟩
  · exact fun s t o => ⟨_, rfl⟩
  · exact fun s => ⟨_, rfl⟩
  · exact fun s b => ⟨_, rfl⟩
  · intro s n
    unfold returnsSelf setFrame
    split <;> exact ⟨_, rfl⟩
  · exact fun s lm ao => ⟨_, rfl⟩
  · intro s v lm ao
    unfold returnsSelf startAnimation writeAnimationSpeed
    by_cases h : 1 ≤ v ∧ v ≤ 10000
    · simp [h]
    · simp [h]
  · exact fun s => ⟨_, rfl⟩
  · intro s v
    unfold returnsSelf setAnimationSpeed writeAnimationSpeed
    by_cases h : 1 ≤ v ∧ v ≤ 10000
    · simp [h]
    · simp [h]
  · exact fun s o => ⟨_, rfl⟩
  · intro s ft t rest
    exact ⟨_, addFrames_cons s ft t rest⟩
  · intro s ft t
    exact ⟨_, addFrames_single s ft t⟩
  · intro s ft
    rw [returnsSelf, addFrames_nil s ft]
    rintro ⟨s', h⟩
    exact Except.noConfusion h

/-- Witness for `methods_return_self_or_raise`: the in-range speed 100
makes `setAnimationSpeed` return the instance, and `addFrames` with an
empty list does not. -/
theorem methods_return_self_or_raise_witness :
    returnsSelf (setAnimationSpeed mol3dDefault 100) ∧
    ¬ returnsSelf (addFrames mol3dDefault (.list []) (some "xyz")) :=
  ⟨(methods_return_self_or_raise.2.2.2.2.2.2.2.2.2.2.2.2.2.1 mol3dDefault 100).mpr
      (by decide),
   methods_return_self_or_raise.2.2.2.2.2.2.2.2.2.2.2.2.2.2.2.2.2 mol3dDefault
      (some "xyz")⟩

/-- Counterexample for claim C8 as stated: `setAnimationSpeed` with the
out-of-range speed 10001 raises the `animation_speed` bounds error instead
of returning the instance. -/
theorem setAnimationSpeed_raises_counterexample :
    setAnimationSpeed mol3dDefault 10001 =
      .error (.boundsError "animation_speed", mol3dDefault) ∧
    ¬ returnsSelf (setAnimationSpeed mol3dDefault 10001) := by
  refine ⟨by decide, ?_⟩
  rintro ⟨s', h⟩
  rw [(by decide : setAnimationSpeed mol3dDefault 10001 =
    .error (.boundsError "animation_speed", mol3dDefault))] at h
  exact Except.noConfusion h

end Panel3dmol
